import Mathlib

/-!
# Verification of the resource-lifecycle controller of `cloudify-aws-plugin`

Shallow embedding of `cloudify_aws/utils.py` and of the EC2 instance
lifecycle operations (`cloudify_aws/ec2/instance.py`, whose behaviour is
modelled from the specification where the module itself is absent from the
sources, constrained by its test suite `test_ec2_instance.py`).

Python dictionaries (node properties, runtime properties, request payloads)
are embedded as association lists over `String` keys; only lookup semantics
matter for the verified properties, so `dictInsert` replaces any existing
binding for the key.
-/

set_option autoImplicit false

namespace CloudifyAws

/-- A Python `dict` with `String` keys, embedded as an association list. -/
abbrev Dict (α : Type) := List (String × α)

/-- Runtime properties / node properties with string values. -/
abbrev Props := Dict String

/-- Lookup `d[k]`, returning `none` when the key is absent (`dict.get`). -/
def dictGet {α : Type} (d : Dict α) (k : String) : Option α :=
  (d.find? (fun p => p.1 == k)).map (fun p => p.2)

/-- Membership test `k in d`. -/
def dictContains {α : Type} (d : Dict α) (k : String) : Bool :=
  d.any (fun p => p.1 == k)

/-- Removal `d.pop(k, None)`: drops every binding of `k`. -/
def dictRemove {α : Type} (d : Dict α) (k : String) : Dict α :=
  d.filter (fun p => p.1 != k)

/-- Assignment `d[k] = v`: binds `k` to `v`, replacing any previous binding. -/
def dictInsert {α : Type} (d : Dict α) (k : String) (v : α) : Dict α :=
  dictRemove d k ++ [(k, v)]

/-- Update `d1.update(d2)`: every binding of `d2` overrides the one in `d1`. -/
def dictUpdate {α : Type} (d1 d2 : Dict α) : Dict α :=
  d2.foldl (fun acc kv => dictInsert acc kv.1 kv.2) d1

/-! ## Basic dictionary lemmas -/

theorem dictGet_nil {α : Type} (k : String) : dictGet ([] : Dict α) k = none := rfl

theorem dictGet_cons {α : Type} (p : String × α) (d : Dict α) (k : String) :
    dictGet (p :: d) k = if p.1 == k then some p.2 else dictGet d k := by
  simp only [dictGet, List.find?]
  cases h : p.1 == k <;> simp [h]

theorem dictContains_cons {α : Type} (p : String × α) (d : Dict α) (k : String) :
    dictContains (p :: d) k = (p.1 == k || dictContains d k) := by
  simp [dictContains]

theorem dictContains_eq_isSome {α : Type} (d : Dict α) (k : String) :
    dictContains d k = (dictGet d k).isSome := by
  induction d with
  | nil => rfl
  | cons p t ih =>
    rw [dictContains_cons, dictGet_cons]
    cases h : p.1 == k <;> simp [h, ih]

theorem dictRemove_cons {α : Type} (p : String × α) (d : Dict α) (k : String) :
    dictRemove (p :: d) k = if p.1 == k then dictRemove d k else p :: dictRemove d k := by
  simp only [dictRemove, List.filter]
  cases h : p.1 == k <;> simp [h, bne]

theorem dictGet_dictRemove_self {α : Type} (d : Dict α) (k : String) :
    dictGet (dictRemove d k) k = none := by
  induction d with
  | nil => rfl
  | cons p t ih =>
    rw [dictRemove_cons]
    cases h : p.1 == k with
    | true => simpa [h] using ih
    | false => rw [if_neg (by simp [h]), dictGet_cons, if_neg (by simp [h])]; exact ih

theorem dictGet_dictRemove_ne {α : Type} (d : Dict α) (k k' : String) (h : k' ≠ k) :
    dictGet (dictRemove d k) k' = dictGet d k' := by
  induction d with
  | nil => rfl
  | cons p t ih =>
    rw [dictRemove_cons]
    cases hp : p.1 == k with
    | true =>
      have hne : (p.1 == k') = false := by
        cases hq : p.1 == k' with
        | true => exact absurd ((eq_of_beq hq).symm.trans (eq_of_beq hp)) h
        | false => rfl
      rw [if_pos rfl, ih, dictGet_cons, hne]
      simp
    | false =>
      rw [if_neg (by simp), dictGet_cons, dictGet_cons, ih]

theorem dictGet_append {α : Type} (d1 d2 : Dict α) (k : String) :
    dictGet (d1 ++ d2) k =
      match dictGet d1 k with
      | some v => some v
      | none => dictGet d2 k := by
  induction d1 with
  | nil => simp [dictGet_nil]
  | cons p t ih =>
    rw [List.cons_append, dictGet_cons, dictGet_cons]
    cases h : p.1 == k <;> simp [h, ih]

theorem dictGet_dictInsert_self {α : Type} (d : Dict α) (k : String) (v : α) :
    dictGet (dictInsert d k v) k = some v := by
  rw [dictInsert, dictGet_append, dictGet_dictRemove_self]
  simp [dictGet_cons]

theorem dictGet_dictInsert_ne {α : Type} (d : Dict α) (k k' : String) (v : α)
    (h : k' ≠ k) :
    dictGet (dictInsert d k v) k' = dictGet d k' := by
  rw [dictInsert, dictGet_append, dictGet_dictRemove_ne d k k' h]
  cases hd : dictGet d k' with
  | some v' => simp
  | none =>
    simp only [dictGet_cons, dictGet_nil]
    rw [if_neg (by simp; intro hc; exact h hc.symm)]

/-! ## `cloudify_aws/utils.py`: runtime-property removal (State Recorder teardown) -/

/-- Embeds `utils.unassign_runtime_property_from_resource`: pops one runtime
property (`pop(name, None)`, so an absent key is a no-op rather than an
error). -/
def unassign_runtime_property_from_resource (property_name : String)
    (runtime_properties : Props) : Props :=
  dictRemove runtime_properties property_name

/-- Embeds `utils.unassign_runtime_properties_from_resource`: iterates the given
property names and pops each one that is present in the store. -/
def unassign_runtime_properties_from_resource (property_names : List String)
    (runtime_properties : Props) : Props :=
  property_names.foldl
    (fun acc name =>
      if dictContains acc name then
        unassign_runtime_property_from_resource name acc
      else acc)
    runtime_properties

theorem dictRemove_of_not_contains {α : Type} (d : Dict α) (k : String)
    (h : dictContains d k = false) : dictRemove d k = d := by
  induction d with
  | nil => rfl
  | cons p t ih =>
    rw [dictContains_cons] at h
    have hp : (p.1 == k) = false := by
      cases hq : p.1 == k
      · rfl
      · rw [hq] at h; simp at h
    have ht : dictContains t k = false := by
      cases hq : dictContains t k
      · rfl
      · rw [hq] at h; simp at h
    rw [dictRemove_cons, if_neg (by simp [hp]), ih ht]

/-- Each step of the fold is extensionally just `dictRemove`. -/
theorem unassign_step_eq_remove (acc : Props) (name : String) :
    (if dictContains acc name then
        unassign_runtime_property_from_resource name acc
      else acc) = dictRemove acc name := by
  cases h : dictContains acc name with
  | true => simp [h, unassign_runtime_property_from_resource]
  | false => simp [h, dictRemove_of_not_contains acc name h]

theorem unassign_eq_foldl_remove (names : List String) (props : Props) :
    unassign_runtime_properties_from_resource names props =
      names.foldl (fun acc name => dictRemove acc name) props := by
  unfold unassign_runtime_properties_from_resource
  induction names generalizing props with
  | nil => rfl
  | cons n t ih => simp only [List.foldl_cons, unassign_step_eq_remove, ih]

theorem dictGet_foldl_remove (names : List String) (props : Props) (k : String) :
    dictGet (names.foldl (fun acc name => dictRemove acc name) props) k =
      if k ∈ names then none else dictGet props k := by
  induction names generalizing props with
  | nil => simp
  | cons n t ih =>
    rw [List.foldl_cons, ih]
    by_cases hk : k ∈ t
    · simp [hk]
    · rcases eq_or_ne k n with rfl | hne
      · simp [hk, dictGet_dictRemove_self]
      · simp [hk, hne, dictGet_dictRemove_ne props n k hne]

/-- C10. `unassign_runtime_properties_from_resource` removes exactly the
listed keys that are present, leaves every other key's value unchanged, and
is total (absent listed keys are silently skipped — the guard `if name in
runtime_properties` plus `pop(name, None)` can never raise). -/
theorem unassign_runtime_properties_spec (property_names : List String)
    (runtime_properties : Props) :
    (∀ k ∈ property_names,
        dictGet (unassign_runtime_properties_from_resource property_names
          runtime_properties) k = none) ∧
    (∀ k, k ∉ property_names →
        dictGet (unassign_runtime_properties_from_resource property_names
          runtime_properties) k = dictGet runtime_properties k) := by
  constructor
  · intro k hk
    rw [unassign_eq_foldl_remove, dictGet_foldl_remove]
    simp [hk]
  · intro k hk
    rw [unassign_eq_foldl_remove, dictGet_foldl_remove]
    simp [hk]

/-- C10 witness: concrete store `{a ↦ 1, c ↦ 2}`, removing `[a, b]`
(with `b` absent) removes `a`, keeps `c = 2`, and raises nothing. -/
theorem unassign_runtime_properties_spec_witness :
    dictGet (unassign_runtime_properties_from_resource ["a", "b"]
      [("a", "1"), ("c", "2")]) "c" = some "2" ∧
    dictGet (unassign_runtime_properties_from_resource ["a", "b"]
      [("a", "1"), ("c", "2")]) "a" = none :=
  ⟨(unassign_runtime_properties_spec ["a", "b"] [("a", "1"), ("c", "2")]).2
      "c" (by decide),
   (unassign_runtime_properties_spec ["a", "b"] [("a", "1"), ("c", "2")]).1
      "a" (by decide)⟩

/-! ## String helpers (character-level embeddings of the Python `str`
operations used by the source, kept structurally recursive so that concrete
instances evaluate by `decide`). -/

/-- Splits a character list at every occurrence of `c` (Python
`str.split(sep)` for a one-character separator). -/
def splitOnCharAux (c : Char) : List Char → List Char → List (List Char)
  | [], acc => [acc.reverse]
  | x :: xs, acc =>
    if x = c then acc.reverse :: splitOnCharAux c xs []
    else splitOnCharAux c xs (x :: acc)

/-- Python `s.split(c)` for a one-character separator `c`. -/
def strSplitOnChar (s : String) (c : Char) : List String :=
  (splitOnCharAux c s.toList []).map (fun l => String.mk l)

/-- Tests whether `pat` is a prefix of `s` (character lists). -/
def listIsPref : List Char → List Char → Bool
  | [], _ => true
  | _ :: _, [] => false
  | x :: xs, y :: ys => x == y && listIsPref xs ys

/-- Tests whether `pat` occurs somewhere inside `s` (character lists). -/
def listHasSub (pat : List Char) : List Char → Bool
  | [] => listIsPref pat []
  | x :: xs => listIsPref pat (x :: xs) || listHasSub pat xs

/-- The string `s` contains `pat` as a substring (the `assertIn` of the
test suite, used to state diagnostics-matching properties). -/
def strContainsSub (s pat : String) : Bool :=
  listHasSub pat.toList s.toList

/-- The string `s` starts with `pat` (the `str.startswith` of the test
suite). -/
def strStartsWith (s pat : String) : Bool :=
  listIsPref pat.toList s.toList

/-! ## `utils.get_resource_id` (Identity Resolver, framework-managed side) -/

/-- Python `os.path.split(path)[1]`: the filename component after the last `/`. -/
def os_path_split_filename (path : String) : String :=
  ((strSplitOnChar path '/').getLast?).getD ""

/-- Embeds `utils.get_resource_id`: returns the user-supplied `resource_id` node
property when it is truthy (non-empty); otherwise, when the node has a
`private_key_path` property, returns the stem of that path's filename
(`filename.split('.')` unpacked into exactly two parts — any other arity
raises `ValueError`); otherwise synthesizes `deployment_id-instance_id`.
Accessing a missing `resource_id` key raises `KeyError`. -/
def get_resource_id (node_properties : Props) (deployment_id instance_id : String) :
    Except String String :=
  match dictGet node_properties "resource_id" with
  | none => .error "KeyError: resource_id"
  | some rid =>
    if rid = "" then
      if dictContains node_properties "private_key_path" then
        let filename := os_path_split_filename
          ((dictGet node_properties "private_key_path").getD "")
        match strSplitOnChar filename '.' with
        | [stem, _filetype] => .ok stem
        | _ => .error "ValueError: too many values to unpack"
      else .ok (deployment_id ++ "-" ++ instance_id)
    else .ok rid

/-- C3 counterexample: with `resource_id` empty and a `private_key_path`
property present, `get_resource_id` returns the key filename's stem
(`"key"`), not the deployment-id/instance-id synthesis, so a source other
than the two named by the claim contributes to the identifier. -/
theorem get_resource_id_private_key_counterexample :
    get_resource_id [("resource_id", ""), ("private_key_path", "/r/key.pem")]
        "dep" "inst" = .ok "key" ∧
    ("key" : String) ≠ "dep" ++ "-" ++ "inst" := by
  constructor
  · rfl
  · decide

/-- C3 (amended). With `use_external_resource` false, the resolved
identifier equals the user-supplied `resource_id` property when non-empty;
otherwise, when the node has no `private_key_path` property, it is
synthesized deterministically as `deployment_id-instance_id`; when the node
does have a `private_key_path` property, the identifier is instead the stem
of that key file's name. -/
theorem get_resource_id_spec (props : Props) (dep inst : String) :
    (∀ rid, dictGet props "resource_id" = some rid → rid ≠ "" →
        get_resource_id props dep inst = .ok rid) ∧
    (dictGet props "resource_id" = some "" →
      dictContains props "private_key_path" = false →
        get_resource_id props dep inst = .ok (dep ++ "-" ++ inst)) ∧
    (∀ pkp stem ext, dictGet props "resource_id" = some "" →
        dictGet props "private_key_path" = some pkp →
        strSplitOnChar (os_path_split_filename pkp) '.' = [stem, ext] →
        get_resource_id props dep inst = .ok stem) := by
  refine ⟨?_, ?_, ?_⟩
  · intro rid hget hne
    simp only [get_resource_id, hget]
    rw [if_neg hne]
  · intro hget hcon
    simp only [get_resource_id, hget]
    rw [if_pos trivial, if_neg (by simp [hcon])]
  · intro pkp stem ext hget hpkp hsplit
    simp only [get_resource_id, hget]
    rw [if_pos trivial, if_pos (by rw [dictContains_eq_isSome, hpkp]; rfl)]
    simp only [hpkp, Option.getD_some, hsplit]

/-- C3 witness: all three branches of the amended claim at concrete
inputs. -/
theorem get_resource_id_spec_witness :
    get_resource_id [("resource_id", "i-abc123")] "dep" "inst" = .ok "i-abc123" ∧
    get_resource_id [("resource_id", "")] "dep" "inst" = .ok ("dep" ++ "-" ++ "inst") ∧
    get_resource_id [("resource_id", ""), ("private_key_path", "/r/key.pem")]
      "dep" "inst" = .ok "key" :=
  ⟨(get_resource_id_spec [("resource_id", "i-abc123")] "dep" "inst").1
      "i-abc123" rfl (by decide),
   (get_resource_id_spec [("resource_id", "")] "dep" "inst").2.1 rfl rfl,
   (get_resource_id_spec [("resource_id", ""), ("private_key_path", "/r/key.pem")]
       "dep" "inst").2.2 "/r/key.pem" "key" "pem" rfl rfl (by decide)⟩

/-! ## `utils.update_args` and the Parameter Assembler merge order -/

theorem dictGet_eq_none_of_not_mem {α : Type} (d : Dict α) (k : String)
    (h : k ∉ d.map Prod.fst) : dictGet d k = none := by
  induction d with
  | nil => rfl
  | cons p t ih =>
    rw [dictGet_cons]
    simp only [List.map_cons, List.mem_cons] at h
    push_neg at h
    rw [if_neg (by simp; intro hc; exact h.1 hc.symm), ih h.2]

/-- Lookup in a dictionary updated by another whose keys are distinct:
bindings of the second dictionary win. -/
theorem dictGet_dictUpdate {α : Type} (d1 d2 : Dict α) (k : String)
    (h : (d2.map Prod.fst).Nodup) :
    dictGet (dictUpdate d1 d2) k =
      (dictGet d2 k).orElse (fun _ => dictGet d1 k) := by
  induction d2 generalizing d1 with
  | nil => simp [dictUpdate, dictGet_nil, Option.orElse]
  | cons p t ih =>
    simp only [List.map_cons, List.nodup_cons] at h
    have step : dictUpdate d1 (p :: t) = dictUpdate (dictInsert d1 p.1 p.2) t := rfl
    rw [step, ih _ h.2, dictGet_cons]
    by_cases hk : p.1 = k
    · subst hk
      rw [if_pos (by simp), dictGet_dictInsert_self,
        dictGet_eq_none_of_not_mem t p.1 h.1]
      cases hd : dictGet d1 p.1 <;> simp [Option.orElse]
    · rw [if_neg (by simp [hk]),
        dictGet_dictInsert_ne d1 p.1 k p.2 (fun hc => hk hc.symm)]

/-- Embeds `utils.update_args`: `parameterized_args.update(args_from_inputs if
args_from_inputs else {})` — explicit invocation arguments override the
parameterized arguments; a falsy (absent) argument dict updates nothing. -/
def update_args {α : Type} (parameterized_args : Dict α)
    (args_from_inputs : Option (Dict α)) : Dict α :=
  dictUpdate parameterized_args (args_from_inputs.getD [])

/-- Modelled from the spec: `Instance._get_instance_parameters` of
`cloudify_aws/ec2/instance.py` (the module is absent from the sources; only
its test suite is present). Spec §4.2: "Merge order (highest precedence
last-wins): named top-level properties → nested `parameters` map →
relationship-discovered values (e.g., attached key-pair file path, attached
security-group identifiers, attached network-interface specs) → explicit
call arguments passed at invocation time." The final merge step is the
source function `update_args`. -/
def get_instance_parameters (named_properties parameters relationship_values : Props)
    (call_args : Option Props) : Props :=
  update_args
    (dictUpdate (dictUpdate named_properties parameters) relationship_values)
    call_args

/-- C7. For every key, the assembled payload takes the value from the
highest-precedence source holding that key, in the order named top-level
properties < `parameters` map < relationship-discovered values < explicit
call arguments (call arguments always win; a key in `parameters` overrides
the same-named top-level property). -/
theorem get_instance_parameters_precedence
    (named parameters rel args : Props) (k : String)
    (hp : (parameters.map Prod.fst).Nodup)
    (hr : (rel.map Prod.fst).Nodup)
    (ha : (args.map Prod.fst).Nodup) :
    dictGet (get_instance_parameters named parameters rel (some args)) k =
      (dictGet args k).orElse (fun _ =>
        (dictGet rel k).orElse (fun _ =>
          (dictGet parameters k).orElse (fun _ => dictGet named k))) := by
  unfold get_instance_parameters update_args
  simp only [Option.getD_some]
  rw [dictGet_dictUpdate _ _ _ ha, dictGet_dictUpdate _ _ _ hr,
    dictGet_dictUpdate _ _ _ hp]

/-- C7 witness: `parameters["image_id"]` overrides the top-level
`image_id`, a call argument overrides everything, and an unshadowed
top-level property survives (mirrors `test_get_instance_parameters`). -/
theorem get_instance_parameters_precedence_witness :
    dictGet (get_instance_parameters
        [("image_id", "abc"), ("instance_type", "efg")]
        [("image_id", "abcd"), ("key_name", "xyz")]
        []
        (some [("key_name", "zzz")])) "image_id" = some "abcd" ∧
    dictGet (get_instance_parameters
        [("image_id", "abc"), ("instance_type", "efg")]
        [("image_id", "abcd"), ("key_name", "xyz")]
        []
        (some [("key_name", "zzz")])) "key_name" = some "zzz" ∧
    dictGet (get_instance_parameters
        [("image_id", "abc"), ("instance_type", "efg")]
        [("image_id", "abcd"), ("key_name", "xyz")]
        []
        (some [("key_name", "zzz")])) "instance_type" = some "efg" := by
  refine ⟨?_, ?_, ?_⟩ <;>
    rw [get_instance_parameters_precedence _ _ _ _ _ (by decide) (by decide)
      (by decide)] <;> rfl

/-! ## Substring lemmas for diagnostics matching -/

theorem listIsPref_refl (l : List Char) : listIsPref l l = true := by
  induction l with
  | nil => rfl
  | cons x xs ih => simp [listIsPref, ih]

theorem listIsPref_append (pat xs ys : List Char)
    (h : listIsPref pat xs = true) : listIsPref pat (xs ++ ys) = true := by
  induction pat generalizing xs with
  | nil => rfl
  | cons c cs ih =>
    cases xs with
    | nil => simp [listIsPref] at h
    | cons x xt =>
      simp only [listIsPref, Bool.and_eq_true] at h ⊢
      exact ⟨h.1, ih xt h.2⟩

theorem listHasSub_append_left (pat xs ys : List Char)
    (h : listHasSub pat xs = true) : listHasSub pat (xs ++ ys) = true := by
  induction xs with
  | nil =>
    cases pat with
    | nil => cases ys <;> simp [listHasSub, listIsPref]
    | cons c cs => simp [listHasSub, listIsPref] at h
  | cons x xt ih =>
    simp only [listHasSub, Bool.or_eq_true] at h ⊢
    rcases h with h | h
    · exact Or.inl (listIsPref_append pat (x :: xt) ys h)
    · exact Or.inr (ih h)

theorem listHasSub_append_right (pat xs ys : List Char)
    (h : listHasSub pat ys = true) : listHasSub pat (xs ++ ys) = true := by
  induction xs with
  | nil => exact h
  | cons x xt ih =>
    simp only [List.cons_append, listHasSub, Bool.or_eq_true]
    exact Or.inr ih

theorem str_toList_append (s t : String) : (s ++ t).toList = s.toList ++ t.toList :=
  rfl

theorem strContainsSub_append_left (s t pat : String)
    (h : strContainsSub s pat = true) : strContainsSub (s ++ t) pat = true := by
  unfold strContainsSub at h ⊢
  rw [str_toList_append]
  exact listHasSub_append_left _ _ _ h

theorem strContainsSub_append_right (s t pat : String)
    (h : strContainsSub t pat = true) : strContainsSub (s ++ t) pat = true := by
  unfold strContainsSub at h ⊢
  rw [str_toList_append]
  exact listHasSub_append_right _ _ _ h

theorem strContainsSub_self (s : String) : strContainsSub s s = true := by
  unfold strContainsSub
  cases h : s.toList with
  | nil => rfl
  | cons c cs =>
    simp only [listHasSub, Bool.or_eq_true]
    exact Or.inl (listIsPref_refl _)

/-! ## `utils.get_external_resource_id_or_raise` and the lifecycle
transitions (Operation Executor) -/

/-- The reserved runtime-property key `constants.EXTERNAL_RESOURCE_ID`
(`constants.py` is absent from the sources; the test suite fixes the key to
`aws_resource_id`). -/
def EXTERNAL_RESOURCE_ID : String := "aws_resource_id"

/-- Embeds `utils.get_external_resource_id_or_raise`: raises `NonRecoverableError`
(`"Cannot {operation} because {key} is not assigned."`) when the reserved
identifier runtime property has not been set, and returns its value
otherwise. -/
def get_external_resource_id_or_raise (operation : String)
    (runtime_properties : Props) : Except String String :=
  if dictContains runtime_properties EXTERNAL_RESOURCE_ID = false then
    .error ("Cannot " ++ operation ++ " because " ++ EXTERNAL_RESOURCE_ID ++
      " is not assigned.")
  else
    .ok ((dictGet runtime_properties EXTERNAL_RESOURCE_ID).getD "")

/-- Remote-side state of a compute instance. -/
inductive InstState
  | pending
  | running
  | stopped
  | terminated
deriving DecidableEq

/-- Modelled from the spec: the common body of `start`, `stop` and `delete`
in `cloudify_aws/ec2/instance.py` (the module is absent from the sources;
only its test suite is present). Spec §4.3: "look up the remote object by
recorded identifier; if not found, fail non-recoverable with a
provider-reported not-found message; otherwise issue the corresponding
transition call and poll/confirm the resulting state matches the expected
terminal state for that transition (running / stopped / terminated)". The
remote account is a map from instance id to state; the provider-reported
diagnostic carries the `InvalidInstanceID.NotFound` code. -/
def lifecycle_transition (operation : String) (target : InstState)
    (runtime_properties : Props) (remote : Dict InstState) :
    Except String (Dict InstState) :=
  match get_external_resource_id_or_raise operation runtime_properties with
  | .error e => .error e
  | .ok instance_id =>
    if dictContains remote instance_id then
      .ok (dictInsert remote instance_id target)
    else
      .error ("InvalidInstanceID.NotFound: no instance with id " ++
        instance_id ++ " exists in this account")

/-- Operation `instance.start`: transitions the recorded instance to `running`. -/
def start (runtime_properties : Props) (remote : Dict InstState) :
    Except String (Dict InstState) :=
  lifecycle_transition "start" .running runtime_properties remote

/-- Operation `instance.stop`: transitions the recorded instance to `stopped`. -/
def stop (runtime_properties : Props) (remote : Dict InstState) :
    Except String (Dict InstState) :=
  lifecycle_transition "stop" .stopped runtime_properties remote

/-- Operation `instance.delete`: transitions the recorded instance to `terminated`. -/
def delete (runtime_properties : Props) (remote : Dict InstState) :
    Except String (Dict InstState) :=
  lifecycle_transition "delete" .terminated runtime_properties remote

theorem lifecycle_transition_not_found (operation : String) (target : InstState)
    (rp : Props) (remote : Dict InstState) (iid : String)
    (hget : dictGet rp EXTERNAL_RESOURCE_ID = some iid)
    (hrem : dictContains remote iid = false) :
    ∃ m, lifecycle_transition operation target rp remote = .error m ∧
      strContainsSub m "NotFound" = true := by
  refine ⟨"InvalidInstanceID.NotFound: no instance with id " ++ iid ++
    " exists in this account", ?_, ?_⟩
  · unfold lifecycle_transition get_external_resource_id_or_raise
    rw [dictContains_eq_isSome, hget]
    simp only [Option.isSome_some, Bool.true_eq_false, if_false, hget,
      Option.getD_some]
    rw [if_neg (by simp [hrem])]
  · have h1 : strContainsSub "InvalidInstanceID.NotFound: no instance with id "
        "NotFound" = true := by decide
    exact strContainsSub_append_left _ _ _
      (strContainsSub_append_left _ _ _ h1)

theorem lifecycle_transition_no_id (operation : String) (target : InstState)
    (rp : Props) (remote : Dict InstState)
    (h : dictContains rp EXTERNAL_RESOURCE_ID = false) :
    ∃ m, lifecycle_transition operation target rp remote = .error m ∧
      strContainsSub m "is not assigned" = true := by
  refine ⟨"Cannot " ++ operation ++ " because " ++ EXTERNAL_RESOURCE_ID ++
    " is not assigned.", ?_, ?_⟩
  · unfold lifecycle_transition get_external_resource_id_or_raise
    rw [if_pos h]
  · have h2 : strContainsSub (" is not assigned.") "is not assigned" = true := by
      decide
    exact strContainsSub_append_right _ _ _ h2

/-- C4. For every `start`, `stop` or `delete` invocation whose recorded
identifier matches no existing remote object, the operation fails
non-recoverably with a provider `NotFound`-style diagnostic; and when no
identifier has been recorded at all, the identifier lookup itself
(`get_external_resource_id_or_raise`) fails non-recoverably ("... is not
assigned."). -/
theorem lifecycle_not_found_spec (rp : Props) (remote : Dict InstState) :
    (∀ iid, dictGet rp EXTERNAL_RESOURCE_ID = some iid →
      dictContains remote iid = false →
      ∀ f ∈ [start, stop, delete],
        ∃ m, f rp remote = .error m ∧ strContainsSub m "NotFound" = true) ∧
    (dictContains rp EXTERNAL_RESOURCE_ID = false →
      ∀ f ∈ [start, stop, delete],
        ∃ m, f rp remote = .error m ∧
          strContainsSub m "is not assigned" = true) := by
  constructor
  · intro iid hget hrem f hf
    simp only [List.mem_cons, List.not_mem_nil, or_false] at hf
    rcases hf with rfl | rfl | rfl
    · exact lifecycle_transition_not_found "start" .running rp remote iid hget hrem
    · exact lifecycle_transition_not_found "stop" .stopped rp remote iid hget hrem
    · exact lifecycle_transition_not_found "delete" .terminated rp remote iid
        hget hrem
  · intro h f hf
    simp only [List.mem_cons, List.not_mem_nil, or_false] at hf
    rcases hf with rfl | rfl | rfl
    · exact lifecycle_transition_no_id "start" .running rp remote h
    · exact lifecycle_transition_no_id "stop" .stopped rp remote h
    · exact lifecycle_transition_no_id "delete" .terminated rp remote h

/-- C4 witness: with recorded id `bad_id` absent from the remote account,
`start` fails with a `NotFound` diagnostic; with no recorded id, `stop`
fails with the "is not assigned" diagnostic. -/
theorem lifecycle_not_found_spec_witness :
    (∃ m, start [("aws_resource_id", "bad_id")] [("i-123", InstState.running)] =
        .error m ∧ strContainsSub m "NotFound" = true) ∧
    (∃ m, stop [] [("i-123", InstState.running)] = .error m ∧
        strContainsSub m "is not assigned" = true) :=
  ⟨(lifecycle_not_found_spec [("aws_resource_id", "bad_id")]
        [("i-123", InstState.running)]).1 "bad_id" rfl (by decide)
      start (by simp),
   (lifecycle_not_found_spec [] [("i-123", InstState.running)]).2 (by decide)
      stop (by simp)⟩

/-! ## The create operation (Operation Executor, identity-aware) -/

/-- Outcome of a create invocation: the updated runtime properties paired
with the number of remote create calls issued, or a non-recoverable
error. -/
inductive CreateOutcome
  | ok (runtime_properties : Props) (create_calls : Nat)
  | nonRecoverable (msg : String)
deriving DecidableEq

/-- The number of remote create calls an outcome issued. -/
def CreateOutcome.createCalls : CreateOutcome → Nat
  | .ok _ n => n
  | .nonRecoverable _ => 0

/-- Modelled from the spec: `Instance._run_instances_if_needed` of
`cloudify_aws/ec2/instance.py` (the module is absent from the sources; only
its test suite is present). Spec §4.3: if the identifier is already
recorded, skip issuing a new create call; "On a retried invocation (the
orchestration engine signals this is not the first attempt), first check
whether a resource from a prior partial attempt already exists (by a
previously recorded batch/reservation identifier); if exactly one exists,
adopt it; ... if more than one exists, fail non-recoverable ('more than one
instance was created')"; "A prior attempt that produced zero results after
exhausting retries fails non-recoverable ('failed for an unknown reason')".
`reservation_instances` is the list of instances the previously recorded
reservation identifier resolves to; `fresh_id` is the identifier the remote
create call would assign. -/
def run_instances_if_needed (retry_number : Nat) (runtime_properties : Props)
    (reservation_instances : List String) (fresh_id : String) : CreateOutcome :=
  if dictContains runtime_properties EXTERNAL_RESOURCE_ID then
    .ok runtime_properties 0
  else if retry_number > 0 then
    match reservation_instances with
    | [] => .nonRecoverable "Instance failed for an unknown reason"
    | [i] => .ok (dictInsert runtime_properties EXTERNAL_RESOURCE_ID i) 0
    | _ => .nonRecoverable "more than one instance was created"
  else
    .ok (dictInsert runtime_properties EXTERNAL_RESOURCE_ID fresh_id) 1

/-- Modelled from the spec: `instance.create` of
`cloudify_aws/ec2/instance.py` (absent from the sources). Spec §4.1/§4.3:
with `use_external_resource` true, the supplied `resource_id` must already
exist remotely and is adopted without a create call (a missing match is a
non-recoverable user configuration error); otherwise the creation core
`run_instances_if_needed` decides whether a remote create call is
issued. -/
def create (use_external_resource : Bool) (resource_id : String)
    (remote : List String) (retry_number : Nat) (runtime_properties : Props)
    (reservation_instances : List String) (fresh_id : String) : CreateOutcome :=
  if use_external_resource then
    if remote.contains resource_id then
      .ok (dictInsert runtime_properties EXTERNAL_RESOURCE_ID resource_id) 0
    else
      .nonRecoverable
        "External resource, but the supplied instance id is not in the account."
  else
    run_instances_if_needed retry_number runtime_properties
      reservation_instances fresh_id

/-- C1. For every node instance whose runtime properties already record the
remote identifier, invoking `create` again issues no remote create call
(`createCalls = 0`), and on the framework-managed path it returns the
runtime properties unchanged — so at most one remote object is ever
associated with the node instance. -/
theorem create_idempotent_on_reentry (use_external_resource : Bool)
    (resource_id : String) (remote : List String) (retry_number : Nat)
    (runtime_properties : Props) (reservation_instances : List String)
    (fresh_id : String)
    (h : dictContains runtime_properties EXTERNAL_RESOURCE_ID = true) :
    (create use_external_resource resource_id remote retry_number
        runtime_properties reservation_instances fresh_id).createCalls = 0 ∧
    (use_external_resource = false →
      create use_external_resource resource_id remote retry_number
        runtime_properties reservation_instances fresh_id =
        .ok runtime_properties 0) := by
  constructor
  · unfold create
    cases use_external_resource with
    | true =>
      rw [if_pos rfl]
      cases hr : remote.contains resource_id <;> simp [hr, CreateOutcome.createCalls]
    | false =>
      rw [if_neg (by simp)]
      unfold run_instances_if_needed
      rw [if_pos h]
      rfl
  · intro hu
    subst hu
    unfold create
    rw [if_neg (by simp)]
    unfold run_instances_if_needed
    rw [if_pos h]

/-- C1 witness: a second `create` on a store already holding
`aws_resource_id = i-1` issues zero create calls and leaves the store
unchanged. -/
theorem create_idempotent_on_reentry_witness :
    (create false "" ["i-1"] 0 [("aws_resource_id", "i-1")] [] "i-2").createCalls
      = 0 ∧
    create false "" ["i-1"] 0 [("aws_resource_id", "i-1")] [] "i-2" =
      .ok [("aws_resource_id", "i-1")] 0 :=
  ⟨(create_idempotent_on_reentry false "" ["i-1"] 0 [("aws_resource_id", "i-1")]
      [] "i-2" (by decide)).1,
   (create_idempotent_on_reentry false "" ["i-1"] 0 [("aws_resource_id", "i-1")]
      [] "i-2" (by decide)).2 rfl⟩

/-- C2. On a retried create invocation (`retry_number > 0`) with no
identifier recorded yet: a prior reservation resolving to exactly one
instance is adopted (recorded, no new create call); resolving to zero
instances fails non-recoverably with a message containing "unknown reason";
resolving to two or more fails non-recoverably with a message containing
"more than one instance was created". -/
theorem run_instances_retry_spec (retry_number : Nat) (rp : Props)
    (reservation_instances : List String) (fresh_id : String)
    (hretry : retry_number > 0)
    (hnoid : dictContains rp EXTERNAL_RESOURCE_ID = false) :
    (∀ i, reservation_instances = [i] →
      run_instances_if_needed retry_number rp reservation_instances fresh_id =
        .ok (dictInsert rp EXTERNAL_RESOURCE_ID i) 0) ∧
    (reservation_instances = [] →
      ∃ m, run_instances_if_needed retry_number rp reservation_instances
          fresh_id = .nonRecoverable m ∧
        strContainsSub m "unknown reason" = true) ∧
    (2 ≤ reservation_instances.length →
      ∃ m, run_instances_if_needed retry_number rp reservation_instances
          fresh_id = .nonRecoverable m ∧
        strContainsSub m "more than one instance was created" = true) := by
  refine ⟨?_, ?_, ?_⟩
  · intro i hres
    subst hres
    unfold run_instances_if_needed
    rw [if_neg (by simp [hnoid]), if_pos hretry]
  · intro hres
    subst hres
    refine ⟨"Instance failed for an unknown reason", ?_, by decide⟩
    unfold run_instances_if_needed
    rw [if_neg (by simp [hnoid]), if_pos hretry]
  · intro hlen
    match reservation_instances, hlen with
    | i1 :: i2 :: rest, _ =>
      refine ⟨"more than one instance was created", ?_, by decide⟩
      unfold run_instances_if_needed
      rw [if_neg (by simp [hnoid]), if_pos hretry]

/-- C2 witness: retried create with reservation resolving to one, zero and
two instances respectively. -/
theorem run_instances_retry_spec_witness :
    run_instances_if_needed 1 [] ["i-1"] "i-9" =
      .ok (dictInsert [] EXTERNAL_RESOURCE_ID "i-1") 0 ∧
    (∃ m, run_instances_if_needed 1 [] [] "i-9" = .nonRecoverable m ∧
      strContainsSub m "unknown reason" = true) ∧
    (∃ m, run_instances_if_needed 1 [] ["i-0", "i-1"] "i-9" =
        .nonRecoverable m ∧
      strContainsSub m "more than one instance was created" = true) :=
  ⟨(run_instances_retry_spec 1 [] ["i-1"] "i-9" (by decide) (by decide)).1
      "i-1" rfl,
   (run_instances_retry_spec 1 [] [] "i-9" (by decide) (by decide)).2.1 rfl,
   (run_instances_retry_spec 1 [] ["i-0", "i-1"] "i-9" (by decide)
      (by decide)).2.2 (by decide)⟩

/-! ## User-data assembly (Parameter Assembler) -/

/-- The marker opening a combined multi-part user-data document (the test
suite checks `startswith('Content-Type: multi')`). -/
def multipart_marker : String := "Content-Type: multipart/mixed; "

/-- A combined multi-part user-data document: both parts preserved, agent
script first, opened by the multi-part marker. -/
def combine_userdata (agent_script user_data : String) : String :=
  multipart_marker ++ agent_script ++ "\n" ++ user_data

/-- Modelled from the spec: `Instance._handle_userdata` of
`cloudify_aws/ec2/instance.py` (the module is absent from the sources; only
its test suite is present). Spec §4.2: "If an agent-bootstrap script is
produced by an external collaborator (agent installer) AND explicit user
data is also supplied, the two are combined into a multi-part payload
(policy: both parts preserved, agent script first); if only one is present,
it is used verbatim; if neither, the key is omitted entirely from the
payload (not set to empty)." `agent_init_script` is the collaborator's
output (`none` when no bootstrap script is produced). -/
def handle_userdata (agent_init_script : Option String) (parameters : Props) :
    Props :=
  match agent_init_script, dictGet parameters "user_data" with
  | some script, some existing =>
      dictInsert parameters "user_data" (combine_userdata script existing)
  | some script, none => dictInsert parameters "user_data" script
  | none, some _ => parameters
  | none, none => parameters

/-- C5. With both an agent-bootstrap script and explicit user data, the
assembled `user_data` value is the multi-part document — it begins with the
multi-part marker and preserves both parts, agent script first; with
exactly one of the two, the value is that one verbatim; with neither, the
`user_data` key is entirely absent from the payload. -/
theorem handle_userdata_spec (agent_init_script : Option String)
    (parameters : Props) :
    (∀ s u, agent_init_script = some s →
      dictGet parameters "user_data" = some u →
      dictGet (handle_userdata agent_init_script parameters) "user_data" =
          some (multipart_marker ++ s ++ "\n" ++ u) ∧
        strStartsWith (multipart_marker ++ s ++ "\n" ++ u) multipart_marker
          = true) ∧
    (∀ s, agent_init_script = some s →
      dictGet parameters "user_data" = none →
      dictGet (handle_userdata agent_init_script parameters) "user_data" =
        some s) ∧
    (∀ u, agent_init_script = none →
      dictGet parameters "user_data" = some u →
      dictGet (handle_userdata agent_init_script parameters) "user_data" =
        some u) ∧
    (agent_init_script = none →
      dictGet parameters "user_data" = none →
      dictContains (handle_userdata agent_init_script parameters) "user_data" =
        false) := by
  refine ⟨?_, ?_, ?_, ?_⟩
  · intro s u ha hu
    subst ha
    constructor
    · unfold handle_userdata
      rw [hu]
      rw [dictGet_dictInsert_self]
      rfl
    · unfold strStartsWith
      rw [show multipart_marker ++ s ++ "\n" ++ u =
          multipart_marker ++ (s ++ "\n" ++ u) by
        simp [String.append_assoc]]
      rw [str_toList_append]
      exact listIsPref_append _ _ _ (listIsPref_refl _)
  · intro s ha hu
    subst ha
    unfold handle_userdata
    rw [hu, dictGet_dictInsert_self]
  · intro u ha hu
    subst ha
    unfold handle_userdata
    rw [hu]
    exact hu
  · intro ha hu
    subst ha
    unfold handle_userdata
    rw [hu, dictContains_eq_isSome, hu]
    rfl

/-- C5 witness: both parts give the marked multi-part document (agent
script first), a single part passes verbatim, and no parts leave the key
absent (mirrors `test_with_both_userdata_clean`,
`test_with_userdata_clean`, `test_without_userdata_clean`). -/
theorem handle_userdata_spec_witness :
    dictGet (handle_userdata (some "#! SCRIPT") [("user_data", "#! EXISTING")])
        "user_data" =
      some (multipart_marker ++ "#! SCRIPT" ++ "\n" ++ "#! EXISTING") ∧
    dictGet (handle_userdata (some "SCRIPT") []) "user_data" = some "SCRIPT" ∧
    dictContains (handle_userdata none []) "user_data" = false :=
  ⟨((handle_userdata_spec (some "#! SCRIPT") [("user_data", "#! EXISTING")]).1
      "#! SCRIPT" "#! EXISTING" rfl rfl).1,
   (handle_userdata_spec (some "SCRIPT") []).2.1 "SCRIPT" rfl rfl,
   (handle_userdata_spec none []).2.2.2 rfl rfl⟩

/-! ## Private-key resolution (Parameter Assembler, password login) -/

/-- The environment `Instance._get_private_key` consults besides its
explicit `private_key_path` argument: the private-key path recorded by a
related key-pair node (if a single one is connected, via
`utils.get_single_connected_node_by_type`), the bootstrap/agent context's
configured key path, and the set of files that exist on disk. -/
structure KeyEnv where
  relationship_key_path : Option String
  bootstrap_key_path : Option String
  existing_files : List String

/-- The key-file path attempted, in the spec's priority order: the explicit
property if non-empty, else the related key-pair node's recorded path, else
the bootstrap/agent context's configured path (empty when nothing
resolves). -/
def resolved_key_path (private_key_path : String) (env : KeyEnv) : String :=
  if private_key_path ≠ "" then private_key_path
  else
    match env.relationship_key_path with
    | some p => p
    | none => env.bootstrap_key_path.getD ""

/-- Modelled from the spec: `Instance._get_private_key` of
`cloudify_aws/ec2/instance.py` (the module is absent from the sources; only
its test suite is present). Spec §4.2: "a private-key file path must be
obtainable from exactly one of three sources in priority order: (a)
explicit property — but if a key is *also* found via relationship, this is
a configuration conflict and fails immediately (non-recoverable, 'cannot
have a key from both sources'); (b) a related key-pair node instance's
recorded private-key path; (c) the bootstrap/agent context's configured key
path. If none resolves, fails non-recoverable with a 'cannot locate key
file' message including the attempted path." -/
def get_private_key (private_key_path : String) (env : KeyEnv) :
    Except String String :=
  if private_key_path ≠ "" && env.relationship_key_path.isSome then
    .error ("cannot have a key from both sources: the private_key_path " ++
      "property and a connected key pair node")
  else if resolved_key_path private_key_path env ≠ "" &&
      env.existing_files.contains (resolved_key_path private_key_path env) then
    .ok (resolved_key_path private_key_path env)
  else
    .error ("cannot locate key file; expected file path was " ++
      resolved_key_path private_key_path env)

/-- C6. A key supplied both as the explicit property and via a related
key-pair node fails immediately with the configuration-conflict diagnostic
("cannot have a key from both sources"); and when no source yields an
existing key file (the attempted path, resolved in priority order, names no
existing file), resolution fails with a "cannot locate key file" message
that includes the attempted path. -/
theorem get_private_key_spec (private_key_path : String) (env : KeyEnv) :
    (private_key_path ≠ "" → env.relationship_key_path.isSome = true →
      ∃ m, get_private_key private_key_path env = .error m ∧
        strContainsSub m "cannot have a key from both sources" = true) ∧
    ((private_key_path ≠ "" && env.relationship_key_path.isSome) = false →
      env.existing_files.contains (resolved_key_path private_key_path env)
        = false →
      ∃ m, get_private_key private_key_path env = .error m ∧
        strContainsSub m "cannot locate key file" = true ∧
        strContainsSub m (resolved_key_path private_key_path env) = true) := by
  constructor
  · intro hp hr
    refine ⟨"cannot have a key from both sources: the private_key_path " ++
      "property and a connected key pair node", ?_, ?_⟩
    · unfold get_private_key
      rw [if_pos (by simp [hp, hr])]
    · exact strContainsSub_append_left _ _ _
        (by decide)
  · intro hcon hfile
    refine ⟨"cannot locate key file; expected file path was " ++
      resolved_key_path private_key_path env, ?_, ?_, ?_⟩
    · unfold get_private_key
      rw [if_neg (by rw [hcon]; simp), if_neg (by rw [hfile, Bool.and_false]; simp)]
    · exact strContainsSub_append_left _ _ _ (by decide)
    · exact strContainsSub_append_right _ _ _ (strContainsSub_self _)

/-- C6 witness: explicit property plus related key-pair node conflicts;
an explicit path naming no existing file fails with the path in the
message (mirrors `test_key_pair_and_relationship`,
`test_no_key_pair_file`). -/
theorem get_private_key_spec_witness :
    (∃ m, get_private_key "/r/key.pem" ⟨some "/r/other.pem", none, []⟩ =
        .error m ∧
      strContainsSub m "cannot have a key from both sources" = true) ∧
    (∃ m, get_private_key "/r/key.pem" ⟨none, none, []⟩ = .error m ∧
      strContainsSub m "cannot locate key file" = true ∧
      strContainsSub m (resolved_key_path "/r/key.pem" ⟨none, none, []⟩)
        = true) :=
  ⟨(get_private_key_spec "/r/key.pem" ⟨some "/r/other.pem", none, []⟩).1
      (by decide) rfl,
   (get_private_key_spec "/r/key.pem" ⟨none, none, []⟩).2 (by decide)
      (by decide)⟩

/-! ## Block-device mapping (Parameter Assembler) -/

/-- Joins path components with `/`. -/
def joinWithSlash : List String → String
  | [] => ""
  | [s] => s
  | s :: rest => s ++ "/" ++ joinWithSlash rest

/-- Modelled from the spec: the device-name key rewrite performed on
`block_device_map` entries by `cloudify_aws/ec2/instance.py` before the
create request is submitted (the module is absent from the sources; only
its test suite is present). Spec §4.2: "user-supplied device-name keys
using an underscore separator (e.g., `dev_sda1`) are rewritten to the
remote API's path syntax (`/dev/sda1`) before submission". -/
def device_name_to_path (device_name : String) : String :=
  "/" ++ joinWithSlash (strSplitOnChar device_name '_')

/-- Rewrites every device-name key of a block-device map. -/
def rewrite_block_device_map {α : Type} (m : Dict α) : Dict α :=
  m.map (fun p => (device_name_to_path p.1, p.2))

/-- Modelled from the spec: the `block_device_map` the create call submits:
the map is taken from the merged payload (the `parameters` property,
overridden by explicit call arguments via the source function
`update_args`) and its device-name keys are rewritten. -/
def submitted_block_device_map {α : Type} (parameters : Dict (Dict α))
    (call_args : Option (Dict (Dict α))) : Option (Dict α) :=
  (dictGet (update_args parameters call_args) "block_device_map").map
    rewrite_block_device_map

/-- C8. An underscore-separated device-name key (e.g. `dev_sda1`) in a
block-device mapping is rewritten to the slash-separated path syntax
(`/dev/sda1`) before submission, both when the map arrives via the
`parameters` property and when it arrives via explicit call arguments (the
latter overriding the former). -/
theorem block_device_map_rewrite_spec (bdm : Dict Nat)
    (parameters : Dict (Dict Nat)) :
    (dictGet parameters "block_device_map" = some bdm →
      submitted_block_device_map parameters none =
        some (rewrite_block_device_map bdm)) ∧
    (submitted_block_device_map parameters
        (some [("block_device_map", bdm)]) =
      some (rewrite_block_device_map bdm)) ∧
    (∀ k v, (k, v) ∈ bdm →
      (device_name_to_path k, v) ∈ rewrite_block_device_map bdm) ∧
    device_name_to_path "dev_sda1" = "/dev/sda1" := by
  refine ⟨?_, ?_, ?_, ?_⟩
  · intro h
    unfold submitted_block_device_map update_args
    simp only [Option.getD_none]
    have hu : dictUpdate parameters ([] : Dict (Dict Nat)) = parameters := rfl
    rw [hu, h]
    rfl
  · unfold submitted_block_device_map update_args
    simp only [Option.getD_some]
    have hu : dictUpdate parameters [("block_device_map", bdm)] =
        dictInsert parameters "block_device_map" bdm := rfl
    rw [hu, dictGet_dictInsert_self]
    rfl
  · intro k v hkv
    unfold rewrite_block_device_map
    exact List.mem_map.mpr ⟨(k, v), hkv, rfl⟩
  · decide

/-- C8 witness: map `{dev_sda1 ↦ 100}` supplied via the `parameters`
property and via call arguments both submit `{/dev/sda1 ↦ 100}` (mirrors
`test_with_block_storage_params` / `test_with_block_storage_args`). -/
theorem block_device_map_rewrite_spec_witness :
    submitted_block_device_map [("block_device_map", [("dev_sda1", 100)])]
        none = some [("/dev/sda1", 100)] ∧
    submitted_block_device_map ([] : Dict (Dict Nat))
        (some [("block_device_map", [("dev_sda1", 100)])]) =
      some [("/dev/sda1", 100)] :=
  ⟨by
    have h := (block_device_map_rewrite_spec [("dev_sda1", 100)]
      [("block_device_map", [("dev_sda1", 100)])]).1 rfl
    rw [h]; decide,
   by
    have h := (block_device_map_rewrite_spec [("dev_sda1", 100)]
      ([] : Dict (Dict Nat))).2.1
    rw [h]; decide⟩

/-! ## `modify_attributes` (Operation Executor) -/

/-- Outcome of `modify_attributes`: whether at least one attribute was
submitted, or a non-recoverable error carrying the provider's message. -/
inductive ModifyOutcome
  | ok (submitted_any : Bool)
  | nonRecoverable (msg : String)
deriving DecidableEq

/-- Submits the supported attributes one by one, counting submissions and
propagating the first remote error. `remote_error a` is the provider's
error message when the remote modify call for attribute `a` errors. -/
def submit_attributes (supported : List String)
    (remote_error : String → Option String) :
    Props → Nat → Except String Nat
  | [], n => .ok n
  | (k, _v) :: rest, n =>
    if supported.contains k then
      match remote_error k with
      | some m => .error m
      | none => submit_attributes supported remote_error rest (n + 1)
    else submit_attributes supported remote_error rest n

/-- Modelled from the spec: `instance.modify_attributes` of
`cloudify_aws/ec2/instance.py` (the module is absent from the sources; only
its test suite is present). Spec §4.3: "accepts a mapping of attribute name
→ new value; for each entry, issues a remote 'modify attribute' call;
unknown/unsupported attribute names are skipped (logged, not an error) —
returns true only if at least one attribute could be submitted, false if
the call could never be attempted (e.g., missing resource), and a
non-recoverable error if the remote call itself errors." -/
def modify_attributes (supported : List String) (resource_present : Bool)
    (remote_error : String → Option String) (new_attributes : Props) :
    ModifyOutcome :=
  if resource_present = false then .ok false
  else
    match submit_attributes supported remote_error new_attributes 0 with
    | .error m => .nonRecoverable m
    | .ok n => .ok (decide (0 < n))

theorem submit_attributes_ok (supported : List String)
    (remote_error : String → Option String) (attrs : Props) (n : Nat)
    (h : ∀ kv ∈ attrs, supported.contains kv.1 = true →
      remote_error kv.1 = none) :
    submit_attributes supported remote_error attrs n =
      .ok (n + attrs.countP (fun kv => supported.contains kv.1)) := by
  induction attrs generalizing n with
  | nil => simp [submit_attributes]
  | cons kv rest ih =>
    have hrest : ∀ p ∈ rest, supported.contains p.1 = true →
        remote_error p.1 = none :=
      fun p hp => h p (List.mem_cons_of_mem kv hp)
    cases hs : supported.contains kv.1 with
    | true =>
      have hre := h kv (List.mem_cons_self kv rest) hs
      obtain ⟨k, v⟩ := kv
      simp only [submit_attributes, hs, if_pos]
      rw [hre, ih _ hrest, List.countP_cons]
      simp only [hs, if_true]
      congr 1
      omega
    | false =>
      obtain ⟨k, v⟩ := kv
      simp only [submit_attributes, hs, Bool.false_eq_true, if_false]
      rw [ih _ hrest, List.countP_cons]
      simp only [hs, Bool.false_eq_true, if_false]
      simp

theorem submit_attributes_error (supported : List String)
    (remote_error : String → Option String) (attrs : Props) (n : Nat)
    (m : String)
    (h : submit_attributes supported remote_error attrs n = .error m) :
    ∃ kv ∈ attrs, supported.contains kv.1 = true ∧
      remote_error kv.1 = some m := by
  induction attrs generalizing n with
  | nil => simp [submit_attributes] at h
  | cons kv rest ih =>
    obtain ⟨k, v⟩ := kv
    by_cases hs : supported.contains k = true
    · simp only [submit_attributes, hs, if_pos] at h
      cases hre : remote_error k with
      | some m' =>
        rw [hre] at h
        refine ⟨(k, v), List.mem_cons_self _ _, hs, ?_⟩
        rw [hre]
        cases h
        rfl
      | none =>
        rw [hre] at h
        obtain ⟨p, hp, hps, hpe⟩ := ih (n + 1) h
        exact ⟨p, List.mem_cons_of_mem _ hp, hps, hpe⟩
    · simp only [submit_attributes, hs, if_neg, Bool.false_eq_true,
        if_false] at h
      obtain ⟨p, hp, hps, hpe⟩ := ih n h
      exact ⟨p, List.mem_cons_of_mem _ hp, hps, hpe⟩

theorem submit_attributes_error_of_mem (supported : List String)
    (remote_error : String → Option String) (attrs : Props) (n : Nat)
    (kv : String × String) (hmem : kv ∈ attrs)
    (hs : supported.contains kv.1 = true) (em : String)
    (he : remote_error kv.1 = some em) :
    ∃ m, submit_attributes supported remote_error attrs n = .error m := by
  induction attrs generalizing n with
  | nil => cases hmem
  | cons p rest ih =>
    obtain ⟨k, v⟩ := p
    by_cases hks : supported.contains k = true
    · cases hre : remote_error k with
      | some m =>
        exact ⟨m, by simp only [submit_attributes, hks, if_pos, hre]⟩
      | none =>
        rcases List.mem_cons.mp hmem with rfl | hmemr
        · have he' : remote_error k = some em := he
          rw [hre] at he'
          cases he'
        · obtain ⟨m, hm⟩ := ih (n + 1) hmemr
          refine ⟨m, ?_⟩
          simp only [submit_attributes, hks, if_pos, hre]
          exact hm
    · rcases List.mem_cons.mp hmem with rfl | hmemr
      · have hs' : supported.contains k = true := hs
        exact absurd hs' hks
      · obtain ⟨m, hm⟩ := ih n hmemr
        refine ⟨m, ?_⟩
        simp only [submit_attributes, hks, Bool.false_eq_true, if_false]
        exact hm

/-- C9. `modify_attributes` skips unsupported attribute names without
error; when the resource is present and no remote call errors, it returns
`true` exactly when at least one attribute was submitted (some given name
is supported); it returns `false` when no modify call could ever be
attempted (missing resource); and it yields a non-recoverable error exactly
when a submitted attribute's remote modify call itself errors: any
supported attribute in the mapping whose remote call errors forces a
non-recoverable outcome, and a non-recoverable outcome arises only from
such an attribute. -/
theorem modify_attributes_spec (supported : List String)
    (resource_present : Bool) (remote_error : String → Option String)
    (new_attributes : Props) :
    (resource_present = false →
      modify_attributes supported resource_present remote_error
        new_attributes = .ok false) ∧
    (resource_present = true →
      (∀ kv ∈ new_attributes, supported.contains kv.1 = true →
        remote_error kv.1 = none) →
      modify_attributes supported resource_present remote_error
        new_attributes =
        .ok (new_attributes.any (fun kv => supported.contains kv.1))) ∧
    (∀ m, modify_attributes supported resource_present remote_error
        new_attributes = .nonRecoverable m →
      ∃ kv ∈ new_attributes, supported.contains kv.1 = true ∧
        remote_error kv.1 = some m) ∧
    (resource_present = true →
      ∀ kv ∈ new_attributes, supported.contains kv.1 = true →
      ∀ em, remote_error kv.1 = some em →
      ∃ m, modify_attributes supported resource_present remote_error
        new_attributes = .nonRecoverable m) := by
  refine ⟨?_, ?_, ?_, ?_⟩
  · intro h
    unfold modify_attributes
    rw [if_pos (by rw [h])]
  · intro hpres hok
    unfold modify_attributes
    rw [if_neg (by rw [hpres]; simp)]
    rw [submit_attributes_ok supported remote_error new_attributes 0 hok]
    have : (0 < 0 + new_attributes.countP (fun kv => supported.contains kv.1))
        ↔ new_attributes.any (fun kv => supported.contains kv.1) = true := by
      rw [Nat.zero_add, List.countP_pos_iff, List.any_eq_true]
    simp only [this]
    congr 1
    cases hany : new_attributes.any (fun kv => supported.contains kv.1) <;>
      simp [hany]
  · intro m h
    unfold modify_attributes at h
    cases hpres : resource_present with
    | false => rw [if_pos (by rw [hpres])] at h; cases h
    | true =>
      rw [if_neg (by rw [hpres]; simp)] at h
      cases hsub : submit_attributes supported remote_error new_attributes 0 with
      | error m' =>
        rw [hsub] at h
        cases h
        exact submit_attributes_error supported remote_error new_attributes 0
          m hsub
      | ok n => rw [hsub] at h; cases h
  · intro hpres kv hmem hs em he
    obtain ⟨m, hm⟩ := submit_attributes_error_of_mem supported remote_error
      new_attributes 0 kv hmem hs em he
    refine ⟨m, ?_⟩
    unfold modify_attributes
    rw [if_neg (by rw [hpres]; simp), hm]

/-- C9 witness: with the resource present, a supported attribute submits
and returns `true`; an unsupported one is skipped and returns `false`
(no modify call could be attempted); with the resource missing the result
is `false`; and a supported attribute whose remote call errors forces a
non-recoverable outcome (mirrors `test_modify_attributes`,
`test_modify_attributes_bad_attribute`,
`test_modify_attributes_raises_error`). -/
theorem modify_attributes_spec_witness :
    modify_attributes ["blockDeviceMapping"] true (fun _ => none)
      [("blockDeviceMapping", "/dev/sda1=true")] = .ok true ∧
    modify_attributes ["blockDeviceMapping"] true (fun _ => none)
      [("badAttribute", "x")] = .ok false ∧
    modify_attributes ["blockDeviceMapping"] false (fun _ => none)
      [("blockDeviceMapping", "/dev/sda1=true")] = .ok false ∧
    (∃ m, modify_attributes ["blockDeviceMapping"] true
      (fun _ => some "error") [("blockDeviceMapping", "/dev/sda1=true")] =
        .nonRecoverable m) :=
  ⟨by
    have h := (modify_attributes_spec ["blockDeviceMapping"] true
      (fun _ => none) [("blockDeviceMapping", "/dev/sda1=true")]).2.1 rfl
      (fun kv _ _ => rfl)
    rw [h]; decide,
   by
    have h := (modify_attributes_spec ["blockDeviceMapping"] true
      (fun _ => none) [("badAttribute", "x")]).2.1 rfl (fun kv _ _ => rfl)
    rw [h]; decide,
   (modify_attributes_spec ["blockDeviceMapping"] false (fun _ => none)
      [("blockDeviceMapping", "/dev/sda1=true")]).1 rfl,
   (modify_attributes_spec ["blockDeviceMapping"] true (fun _ => some "error")
      [("blockDeviceMapping", "/dev/sda1=true")]).2.2.2 rfl
      ("blockDeviceMapping", "/dev/sda1=true") (by simp) (by decide)
      "error" rfl⟩

end CloudifyAws
